import Mathlib

/-!
# Verification of the news retrieval and diversity-summarization backend

A shallow embedding of the core logic of the Flask backend
(`app.py`, `data_loader.py`, `summarize.py`): the article data model,
similarity search (`search_news`), summary listing (`get_summaries`),
the diversity-sampling flow (`create_random_summary`), the summarization
pipeline (`summarize_news_articles`, `save_summary_to_db`), the fallback
embedding (`create_simple_embedding`), CSV ingestion
(`import_csv_file`), and the news-listing query builder (`get_news`).

Database statements are modelled over in-memory lists:
* the pgvector operator `<=>` is an abstract distance parameter
  `d : Emb → Emb → ℤ` (on unit vectors `cosDistUnit` realizes it);
* `ORDER BY` is modelled by the stable `List.insertionSort` (Python's
  `sorted` is likewise stable, and a stable sort of a list under a total
  preorder is unique);
* `ORDER BY RANDOM() LIMIT 1` is an abstract selection function `pick`;
* the external generative call plus its JSON validation is an abstract
  `gen : List ArticleInput → Option SummaryDraft` (`none` models API
  failure or a response that does not parse as the declared shape);
* a storage failure while saving a summary is a boolean `saveOk`.
-/

namespace NewsBackend

/-- Embedding vector (pgvector value); the backend uses dimension 384 but no
property below depends on the dimension. -/
abbrev Emb := List ℤ

/-- Row of the `news_articles` table. -/
structure Article where
  id : Nat
  source : String
  title : String
  link : String
  pub_date : Int
  content : String
  embedding : Emb
  is_summarized : Bool
deriving DecidableEq

/-- Dot product of two vectors, `(u.zip v)` pairing componentwise. -/
def dotEmb (u v : Emb) : ℤ := ((u.zip v).map fun p => p.1 * p.2).sum

/-- pgvector cosine distance `<=>` restricted to unit vectors, where it equals
`1 - dot`. Used to instantiate the abstract distance in concrete examples. -/
def cosDistUnit (u v : Emb) : ℤ := 1 - dotEmb u v

/-! ## Similarity search over news articles (`search_news` in `app.py`)

The SQL statement has its `ORDER BY distance LIMIT %s` commented out, so the
handler fetches every (optionally source-filtered) row with its distance,
converts each to `similarity = 1 - distance`, and then sorts and truncates in
Python: `sorted(articles, key=..., reverse=True)[:limit]`. -/

/-- One formatted search-result row: the article with its
`similarity = 1 - distance` value, as built in the handler's loop. -/
structure ScoredArticle where
  article : Article
  similarity : ℤ
deriving DecidableEq

/-- Descending-similarity ordering used by
`sorted(..., key=lambda a: a["similarity"], reverse=True)`. -/
def simGE (x y : ScoredArticle) : Prop := y.similarity ≤ x.similarity

instance : DecidableRel simGE := fun x y =>
  inferInstanceAs (Decidable (y.similarity ≤ x.similarity))

instance : IsTotal ScoredArticle simGE :=
  ⟨fun x y => le_total y.similarity x.similarity⟩

instance : IsTrans ScoredArticle simGE :=
  ⟨fun _ _ _ h1 h2 => le_trans h2 h1⟩

/-- Python truthiness of the optional `source` parameter: present and
non-empty. -/
def truthyStr : Option String → Bool
  | none => false
  | some s => s ≠ ""

/-- The rows fetched by the `SELECT ... FROM news_articles [WHERE source = %s]`
statement of `search_news`, each carrying `similarity = 1 - distance`. -/
def searchRows (d : Emb → Emb → ℤ) (qEmb : Emb) (source : Option String)
    (table : List Article) : List ScoredArticle :=
  let rows := if truthyStr source then
      table.filter (fun a => a.source = (source.getD ""))
    else table
  rows.map fun a => ⟨a, 1 - d a.embedding qEmb⟩

/-- The fully ranked result list, before truncation:
`sorted(articles, key=lambda a: a["similarity"], reverse=True)`. -/
def rankedNews (d : Emb → Emb → ℤ) (qEmb : Emb) (source : Option String)
    (table : List Article) : List ScoredArticle :=
  List.insertionSort simGE (searchRows d qEmb source table)

/-- `search_news` result list: full ranking, then `[:limit]`. -/
def search_news (d : Emb → Emb → ℤ) (qEmb : Emb) (source : Option String)
    (lim : Nat) (table : List Article) : List ScoredArticle :=
  (rankedNews d qEmb source table).take lim

/-! ## Summaries: data model, saving, fetching (`summarize.py`, `app.py`) -/

/-- One `refs` element as the generative model is instructed to return it:
a sentence of the summary together with the id of the article grounding it. -/
structure RefPair where
  sentence : String
  id : Nat
deriving DecidableEq

/-- The validated JSON object returned by the generative model
(`title`, `tldr`, `summary`, `refs`). -/
structure SummaryDraft where
  title : String
  tldr : List String
  summary : String
  refs : List RefPair
deriving DecidableEq

/-- Row of the `summaries` table. `refs` is a nullable `TEXT[]` column. -/
structure SummaryRow where
  id : Nat
  title : String
  tldr : List String
  summary : String
  news_articles_ids : List Nat
  refs : Option (List String)
  embedding : Emb
  created_at : Nat
deriving DecidableEq

/-- In-memory model of the database: the two tables, the sequence backing
summary ids, and a clock supplying `created_at`. -/
structure DB where
  news : List Article
  summaries : List SummaryRow
  nextSummaryId : Nat
  clock : Nat
deriving DecidableEq

/-- `save_summary_to_db`: computes the summary embedding from
`title + " " + summary` and executes
`INSERT INTO summaries (title, tldr, summary, news_articles_ids, embedding)
VALUES (...) RETURNING id`. The statement names no `refs` column, so the
stored row's `refs` is NULL. Returns the updated database and the new id. -/
def save_summary_to_db (embedFn : String → Emb) (draft : SummaryDraft)
    (article_ids : List Nat) (db : DB) : DB × Nat :=
  let sid := db.nextSummaryId
  let row : SummaryRow :=
    { id := sid
      title := draft.title
      tldr := draft.tldr
      summary := draft.summary
      news_articles_ids := article_ids
      refs := none
      embedding := embedFn (draft.title ++ " " ++ draft.summary)
      created_at := db.clock }
  ({ db with summaries := db.summaries ++ [row], nextSummaryId := sid + 1 }, sid)

/-- A formatted `refs` element of the wire contract, as the handlers build it:
`\x7b"id": i+1, "sentence": sentence\x7d`. -/
structure FormattedRef where
  id : Nat
  sentence : String
deriving DecidableEq

/-- The handlers' loop `for i, sentence in enumerate(row[5])` producing
`\x7b"id": i+1, "sentence": sentence\x7d`; an absent (NULL) `refs` column
yields the empty list. -/
def formatRefs : Option (List String) → List FormattedRef
  | none => []
  | some l => l.enum.map fun p => ⟨p.1 + 1, p.2⟩

/-- The summary JSON object returned by `GET /api/summaries/<id>` (no
`similarity` key). -/
structure FormattedSummary where
  id : Nat
  title : String
  tldr : List String
  summary : String
  news_articles_ids : List Nat
  refs : List FormattedRef
  created_at : Nat
deriving DecidableEq

/-- Formatting of one summary row, shared by `get_summary` and
`get_summaries`. -/
def formatSummaryRow (r : SummaryRow) : FormattedSummary :=
  { id := r.id
    title := r.title
    tldr := r.tldr
    summary := r.summary
    news_articles_ids := r.news_articles_ids
    refs := formatRefs r.refs
    created_at := r.created_at }

/-- `GET /api/summaries/<id>`: `SELECT ... FROM summaries WHERE id = %s`,
formatted; `none` models the 404 branch. -/
def get_summary (db : DB) (sid : Nat) : Option FormattedSummary :=
  (db.summaries.find? fun r => r.id == sid).map formatSummaryRow

/-- A summary JSON object carrying a `similarity` key, as built by the
search path of `get_summaries`. -/
structure SearchSummary where
  id : Nat
  title : String
  tldr : List String
  summary : String
  news_articles_ids : List Nat
  refs : List FormattedRef
  created_at : Nat
  similarity : ℤ
deriving DecidableEq

/-- Descending-similarity ordering used by
`sorted(summaries, key=lambda s: s["similarity"], reverse=True)`. -/
def simGES (x y : SearchSummary) : Prop := y.similarity ≤ x.similarity

instance : DecidableRel simGES := fun x y =>
  inferInstanceAs (Decidable (y.similarity ≤ x.similarity))

instance : IsTotal SearchSummary simGES :=
  ⟨fun x y => le_total y.similarity x.similarity⟩

instance : IsTrans SearchSummary simGES :=
  ⟨fun _ _ _ h1 h2 => le_trans h2 h1⟩

/-- The rows fetched by the search path of `get_summaries` (the SQL carries
no ORDER BY/LIMIT: the "workaround of alias-orderby conflict"), each
formatted with `similarity = 1 - distance`. -/
def summarySearchRows (d : Emb → Emb → ℤ) (qEmb : Emb) (db : DB) :
    List SearchSummary :=
  db.summaries.map fun r =>
    { id := r.id
      title := r.title
      tldr := r.tldr
      summary := r.summary
      news_articles_ids := r.news_articles_ids
      refs := formatRefs r.refs
      created_at := r.created_at
      similarity := 1 - d r.embedding qEmb }

/-- The fully ranked summary list of the search path, before slicing. -/
def rankedSummaries (d : Emb → Emb → ℤ) (qEmb : Emb) (db : DB) :
    List SearchSummary :=
  List.insertionSort simGES (summarySearchRows d qEmb db)

/-- Pagination envelope of `GET /api/summaries` with a search query. -/
structure SummariesResponse where
  total : Nat
  offset : Nat
  limit : Nat
  summaries : List SearchSummary
deriving DecidableEq

/-- The search path of `GET /api/summaries`: counts all summaries, ranks
every row by similarity in Python, then slices with
`summaries[offset:limit]` (elements at indices `offset ≤ i < limit`,
i.e. `take limit` then `drop offset`). -/
def get_summaries_search (d : Emb → Emb → ℤ) (qEmb : Emb)
    (lim off : Nat) (db : DB) : SummariesResponse :=
  { total := db.summaries.length
    offset := off
    limit := lim
    summaries := ((rankedSummaries d qEmb db).take lim).drop off }

/-! ## Summarization pipeline (`summarize_news_articles`) -/

/-- The `\x7bid, title, content\x7d` projection of an article sent to the
generative model. -/
abbrev ArticleInput := Nat × String × String

/-- `summarize_news_articles`: loads the requested articles, calls the
generative model (abstracted as `gen`; `none` covers an API failure and a
response that fails JSON validation), and on success saves the summary
(`saveOk = false` models a storage failure inside `save_summary_to_db`,
which leaves the table unchanged and returns `None`). Every failure
branch returns the error string of the Python code and leaves the
database untouched. -/
def summarize_news_articles (gen : List ArticleInput → Option SummaryDraft)
    (saveOk : Bool) (embedFn : String → Emb) (db : DB)
    (article_ids : List Nat) : DB × Except String (Nat × SummaryDraft) :=
  if article_ids.isEmpty then (db, .error "No article IDs provided")
  else
    if (db.news.filter fun a => a.id ∈ article_ids).isEmpty then
      (db, .error "No articles found with the provided IDs")
    else
      match gen ((db.news.filter fun a => a.id ∈ article_ids).map
          fun a => (a.id, a.title, a.content)) with
      | none => (db, .error "Failed to generate summary")
      | some draft =>
        if saveOk then
          ((save_summary_to_db embedFn draft article_ids db).1,
            .ok ((save_summary_to_db embedFn draft article_ids db).2, draft))
        else (db, .error "Failed to save summary to database")

/-! ## Diversity sampling flow (`create_random_summary` in `app.py`) -/

/-- Ascending order of pgvector distance to a fixed embedding, the
`ORDER BY embedding <=> %s::vector` of the neighbor query. -/
def distLE (d : Emb → Emb → ℤ) (e : Emb) (x y : Article) : Prop :=
  d x.embedding e ≤ d y.embedding e

instance (d : Emb → Emb → ℤ) (e : Emb) : DecidableRel (distLE d e) :=
  fun x y => inferInstanceAs (Decidable (d x.embedding e ≤ d y.embedding e))

instance (d : Emb → Emb → ℤ) (e : Emb) : IsTotal Article (distLE d e) :=
  ⟨fun x y => le_total (d x.embedding e) (d y.embedding e)⟩

instance (d : Emb → Emb → ℤ) (e : Emb) : IsTrans Article (distLE d e) :=
  ⟨fun _ _ _ h1 h2 => le_trans h1 h2⟩

instance (d : Emb → Emb → ℤ) (e : Emb) : IsRefl Article (distLE d e) :=
  ⟨fun x => le_refl (d x.embedding e)⟩

/-- The neighbor query of `create_random_summary`:
`SELECT ... WHERE is_summarized = FALSE AND source != %s
ORDER BY embedding <=> %s::vector LIMIT 5` relative to a seed article. -/
def relatedPool (d : Emb → Emb → ℤ) (seed : Article)
    (table : List Article) : List Article :=
  (List.insertionSort (distLE d seed.embedding)
    (table.filter fun a => !a.is_summarized && a.source != seed.source)).take 5

/-- The handler's walk over the ranked neighbors: append an article only if
its source is not yet in `source_set` (which starts empty). -/
def dedupBySource : List Article → List String → List Article
  | [], _ => []
  | a :: rest, seen =>
    if a.source ∈ seen then dedupBySource rest seen
    else a :: dedupBySource rest (a.source :: seen)

/-- The candidate-set step of `create_random_summary`: fail when fewer than
2 neighbors were returned, otherwise the seed followed by the ranked
neighbors deduplicated by source. -/
def diverseCandidates (seed : Article) (related : List Article) :
    Except String (List Article) :=
  if related.length < 2 then
    .error "Not enough related articles found from different sources"
  else .ok (seed :: dedupBySource related [])

/-- `UPDATE news_articles SET is_summarized = TRUE WHERE id = ANY(%s)`. -/
def markSummarized (ids : List Nat) (news : List Article) : List Article :=
  news.map fun a =>
    if a.id ∈ ids then { a with is_summarized := true } else a

/-- Tail of `create_random_summary` after the diversity guard: summarize the
chosen ids, propagate any error, otherwise mark the ids as summarized. -/
def summarizeAndMark (gen : List ArticleInput → Option SummaryDraft)
    (saveOk : Bool) (embedFn : String → Emb) (db : DB) (ids : List Nat) :
    DB × Except String (Nat × SummaryDraft) :=
  match (summarize_news_articles gen saveOk embedFn db ids).2 with
  | .error e => ((summarize_news_articles gen saveOk embedFn db ids).1,
      .error e)
  | .ok r =>
    ({ (summarize_news_articles gen saveOk embedFn db ids).1 with
        news := markSummarized ids
          (summarize_news_articles gen saveOk embedFn db ids).1.news },
      .ok r)

/-- `POST /api/random-summary`: pick a random unsummarized seed (`pick`
models `ORDER BY RANDOM() LIMIT 1`), fetch the 5 nearest unsummarized
neighbors from other sources, fail when fewer than 2 are returned,
deduplicate them by source, summarize, and on success mark the chosen
articles as summarized. -/
def create_random_summary (d : Emb → Emb → ℤ)
    (gen : List ArticleInput → Option SummaryDraft) (saveOk : Bool)
    (embedFn : String → Emb) (pick : List Article → Option Article)
    (db : DB) : DB × Except String (Nat × SummaryDraft) :=
  match pick (db.news.filter fun a => !a.is_summarized) with
  | none => (db, .error "No unsummarized articles found")
  | some seed =>
    if (relatedPool d seed db.news).length < 2 then
      (db, .error "Not enough related articles found from different sources")
    else
      summarizeAndMark gen saveOk embedFn db
        ((seed :: dedupBySource (relatedPool d seed db.news) []).map
          fun a => a.id)

/-- Number of distinct `source` values among a list of articles. -/
def distinctSources (l : List Article) : Nat :=
  ((l.map fun a => a.source).dedup).length

/-! ## Fallback embedding (`create_simple_embedding` in `data_loader.py`) -/

/-- Process-wide state of the embedding code: the lazily loaded sentence
encoder (`none` when `sentence_transformers` is unavailable or `encode`
raises), the Python string hash of this process, and the numpy routine
`rand(384)` followed by L2 normalization, deterministic in the seed. -/
structure EmbedProc where
  encode : Option (String → List ℤ)
  hash : String → Nat
  randUnit : Nat → List ℤ

/-- Input normalization of `create_simple_embedding`: `None`/non-string/empty
input becomes the placeholder `"No content available"`; text longer than
10000 characters is truncated to its first 10000 characters. -/
def normalizeInput (text : Option String) : String :=
  let t := match text with
    | some s => if s = "" then "No content available" else s
    | none => "No content available"
  if t.length > 10000 then t.take 10000 else t

/-- The pgvector string `"[x1,x2,...]"` returned by
`create_simple_embedding`. -/
def vecToString (v : List ℤ) : String :=
  "[" ++ String.intercalate "," (v.map toString) ++ "]"

/-- `create_simple_embedding`: normalize the input, use the model when
available, otherwise seed numpy with `hash(text) % 2**32` and return the
normalized pseudo-random vector. -/
def create_simple_embedding (p : EmbedProc) (text : Option String) : String :=
  let t := normalizeInput text
  match p.encode with
  | some enc => vecToString (enc t)
  | none => vecToString (p.randUnit (p.hash t % 2 ^ 32))

/-! ## CSV ingestion (`import_csv_file` in `data_loader.py`) -/

/-- The per-record statement of `import_csv_file`:
`INSERT INTO news_articles (...) VALUES (...) ON CONFLICT (link) DO NOTHING`
against the unique index on `link`: when some stored row has the same
`link` the statement does nothing, otherwise the row is appended. -/
def insertArticleOnConflictLink (table : List Article) (a : Article) :
    List Article :=
  if table.any fun b => b.link == a.link then table else table ++ [a]

/-! ## News listing (`get_news` in `app.py`) -/

/-- The `SELECT` prefix of the news-listing query. -/
def baseNewsQuery : String :=
  "SELECT id, source, title, link, pub_date, content FROM news_articles"

/-- The query string built by `get_news`: each of the `source` and `ids`
filters appends its own `" WHERE ..."` fragment, then the ordering and
pagination suffix is appended. -/
def buildNewsQuery (hasSource hasIds : Bool) : String :=
  let q := baseNewsQuery
  let q := if hasSource then q ++ " WHERE source = %s" else q
  let q := if hasIds then q ++ " WHERE id IN %s" else q
  q ++ " ORDER BY pub_date DESC LIMIT %s OFFSET %s"

/-- Number of positions at which `pat` occurs in `l`. -/
def countSub (pat : List Char) : List Char → Nat
  | [] => 0
  | c :: rest =>
    (if pat.isPrefixOf (c :: rest) then 1 else 0) + countSub pat rest

/-- Number of occurrences of the keyword `WHERE` in a query string. -/
def countWhereKw (s : String) : Nat := countSub "WHERE".toList s.data

/-- Python truthiness of the parsed `ids` parameter: present and
non-empty. -/
def truthyIds : Option (List Nat) → Bool
  | none => false
  | some l => !l.isEmpty

/-- Pagination envelope of `GET /api/news`. -/
structure NewsResponse where
  total : Nat
  offset : Nat
  limit : Nat
  articles : List Article
deriving DecidableEq

/-- The rows a single-WHERE news query yields (no filter, source filter, or
ids filter), before ordering and pagination. -/
def newsQueryRows (source : Option String) (ids : Option (List Nat))
    (table : List Article) : List Article :=
  if truthyStr source then table.filter fun a => a.source = source.getD ""
  else if truthyIds ids then table.filter fun a => a.id ∈ ids.getD []
  else table

/-- Descending `pub_date` order of the news listing. -/
def pubDateGE (x y : Article) : Prop := y.pub_date ≤ x.pub_date

instance : DecidableRel pubDateGE := fun x y =>
  inferInstanceAs (Decidable (y.pub_date ≤ x.pub_date))

/-- `GET /api/news`: builds the query string (appending one `WHERE`
fragment per supplied filter); executing it succeeds only when the
statement is well-formed SQL, in particular carries at most one `WHERE`
clause, and then returns the ordered, paginated rows. A malformed
statement makes `cur.execute` raise, which the handler turns into an
error response. -/
def get_news (source : Option String) (ids : Option (List Nat))
    (lim off : Nat) (table : List Article) : Except String NewsResponse :=
  let q := buildNewsQuery (truthyStr source) (truthyIds ids)
  if countWhereKw q ≤ 1 then
    .ok
      { total :=
          (if truthyStr source then
            table.filter fun a => a.source = source.getD ""
          else table).length
        offset := off
        limit := lim
        articles :=
          (((List.insertionSort pubDateGE
            (newsQueryRows source ids table)).drop off).take lim) }
  else .error "invalid SQL: duplicate WHERE clause"

/-! ## Helper lemmas -/

theorem dedupBySource_cons_of_mem {b : Article} {rest : List Article}
    {seen : List String} (hb : b.source ∈ seen) :
    dedupBySource (b :: rest) seen = dedupBySource rest seen := by
  simp [dedupBySource, hb]

theorem dedupBySource_cons_of_not_mem {b : Article} {rest : List Article}
    {seen : List String} (hb : b.source ∉ seen) :
    dedupBySource (b :: rest) seen
      = b :: dedupBySource rest (b.source :: seen) := by
  simp [dedupBySource, hb]

theorem dedupBySource_sublist (l : List Article) (seen : List String) :
    List.Sublist (dedupBySource l seen) l := by
  induction l generalizing seen with
  | nil => simp [dedupBySource]
  | cons a rest ih =>
    by_cases h : a.source ∈ seen
    · rw [dedupBySource_cons_of_mem h]
      exact (ih seen).trans (List.sublist_cons_self a rest)
    · rw [dedupBySource_cons_of_not_mem h]
      exact (ih _).cons₂ a

theorem mem_dedupBySource {a : Article} {l : List Article} {seen : List String}
    (h : a ∈ dedupBySource l seen) : a ∈ l ∧ a.source ∉ seen := by
  induction l generalizing seen with
  | nil => simp [dedupBySource] at h
  | cons b rest ih =>
    by_cases hb : b.source ∈ seen
    · rw [dedupBySource_cons_of_mem hb] at h
      obtain ⟨h1, h2⟩ := ih h
      exact ⟨List.mem_cons_of_mem _ h1, h2⟩
    · rw [dedupBySource_cons_of_not_mem hb] at h
      rcases List.mem_cons.mp h with rfl | h'
      · exact ⟨List.mem_cons_self _ _, hb⟩
      · obtain ⟨h1, h2⟩ := ih h'
        exact ⟨List.mem_cons_of_mem _ h1,
          fun hc => h2 (List.mem_cons_of_mem _ hc)⟩

theorem dedupBySource_sources_nodup (l : List Article) (seen : List String) :
    ((dedupBySource l seen).map fun a => a.source).Nodup := by
  induction l generalizing seen with
  | nil => simp [dedupBySource]
  | cons b rest ih =>
    by_cases hb : b.source ∈ seen
    · rw [dedupBySource_cons_of_mem hb]; exact ih seen
    · rw [dedupBySource_cons_of_not_mem hb]
      simp only [List.map_cons, List.nodup_cons]
      refine ⟨?_, ih _⟩
      intro hmem
      obtain ⟨c, hc, hcs⟩ := List.mem_map.mp hmem
      exact (mem_dedupBySource hc).2 (hcs ▸ List.mem_cons_self _ _)

theorem dedupBySource_covers {s : String} {l : List Article}
    {seen : List String} (hs : s ∈ l.map fun a => a.source) (hns : s ∉ seen) :
    ∃ a, a ∈ dedupBySource l seen ∧ a.source = s := by
  induction l generalizing seen with
  | nil => simp at hs
  | cons b rest ih =>
    by_cases hsb : s = b.source
    · have hb : b.source ∉ seen := hsb ▸ hns
      refine ⟨b, ?_, hsb.symm⟩
      rw [dedupBySource_cons_of_not_mem hb]
      exact List.mem_cons_self _ _
    · have hs' : s ∈ rest.map fun a => a.source := by
        simp only [List.map_cons, List.mem_cons, List.mem_map] at hs ⊢
        exact hs.resolve_left hsb
      by_cases hb : b.source ∈ seen
      · obtain ⟨a, ha, has⟩ := ih hs' hns
        exact ⟨a, by rw [dedupBySource_cons_of_mem hb]; exact ha, has⟩
      · obtain ⟨a, ha, has⟩ := ih hs'
          (fun hc => (List.mem_cons.mp hc).elim hsb hns)
        refine ⟨a, ?_, has⟩
        rw [dedupBySource_cons_of_not_mem hb]
        exact List.mem_cons_of_mem _ ha

theorem dedupBySource_find {a : Article} {l : List Article}
    {seen : List String} (h : a ∈ dedupBySource l seen) :
    l.find? (fun b => b.source == a.source) = some a := by
  induction l generalizing seen with
  | nil => simp [dedupBySource] at h
  | cons b rest ih =>
    by_cases hb : b.source ∈ seen
    · rw [dedupBySource_cons_of_mem hb] at h
      have hne : (b.source == a.source) = false := by
        simp only [beq_eq_false_iff_ne, ne_eq]
        intro he
        exact (mem_dedupBySource h).2 (he ▸ hb)
      simp only [List.find?_cons, hne]
      exact ih h
    · rw [dedupBySource_cons_of_not_mem hb] at h
      rcases List.mem_cons.mp h with rfl | h'
      · simp [List.find?_cons]
      · have hne : (b.source == a.source) = false := by
          simp only [beq_eq_false_iff_ne, ne_eq]
          intro he
          exact (mem_dedupBySource h').2 (he ▸ List.mem_cons_self _ _)
        simp only [List.find?_cons, hne]
        exact ih h'

theorem sorted_find_min {α : Type} {r : α → α → Prop} [IsRefl α r]
    {p : α → Bool} {l : List α} {a : α}
    (hs : l.Sorted r) (hf : l.find? p = some a) :
    ∀ b ∈ l, p b = true → r a b := by
  induction l with
  | nil => simp at hf
  | cons c rest ih =>
    rw [List.sorted_cons] at hs
    obtain ⟨hc, hrest⟩ := hs
    by_cases hpc : p c = true
    · have hac : a = c := by
        simp only [List.find?_cons, hpc] at hf
        exact (Option.some_inj.mp hf).symm
      subst hac
      intro b hb _
      rcases List.mem_cons.mp hb with rfl | hb'
      · exact refl_of r _
      · exact hc b hb'
    · have hf' : rest.find? p = some a := by
        simp only [List.find?_cons, Bool.not_eq_true] at hf ⊢
        rwa [Bool.eq_false_iff.mpr hpc] at hf
      intro b hb hpb
      rcases List.mem_cons.mp hb with rfl | hb'
      · exact absurd hpb hpc
      · exact ih hrest hf' b hb' hpb

theorem relatedPool_sorted (d : Emb → Emb → ℤ) (seed : Article)
    (table : List Article) :
    (relatedPool d seed table).Sorted (distLE d seed.embedding) := by
  unfold relatedPool
  exact List.Pairwise.sublist (List.take_sublist _ _)
    (List.sorted_insertionSort _ _)

theorem mem_relatedPool {d : Emb → Emb → ℤ} {seed : Article}
    {table : List Article} {a : Article} (h : a ∈ relatedPool d seed table) :
    a ∈ table ∧ a.is_summarized = false ∧ a.source ≠ seed.source := by
  unfold relatedPool at h
  have h1 : a ∈ List.insertionSort (distLE d seed.embedding)
      (table.filter fun a => !a.is_summarized && a.source != seed.source) :=
    (List.take_sublist _ _).mem h
  rw [List.mem_insertionSort, List.mem_filter] at h1
  refine ⟨h1.1, ?_⟩
  have := h1.2
  simp only [Bool.and_eq_true, Bool.not_eq_true', bne_iff_ne, ne_eq] at this
  exact this

theorem relatedPool_length_le (d : Emb → Emb → ℤ) (seed : Article)
    (table : List Article) : (relatedPool d seed table).length ≤ 5 := by
  unfold relatedPool
  exact List.length_take_le _ _

theorem rel_length_of_distinct {seed : Article} {rel : List Article}
    (h : 3 ≤ distinctSources (seed :: rel)) : 2 ≤ rel.length := by
  have h1 : distinctSources (seed :: rel) ≤ 1 + distinctSources rel := by
    unfold distinctSources
    simp only [List.map_cons]
    by_cases hm : seed.source ∈ rel.map fun a => a.source
    · rw [List.dedup_cons_of_mem hm]; omega
    · rw [List.dedup_cons_of_not_mem hm, List.length_cons]; omega
  have h2 : distinctSources rel ≤ rel.length := by
    unfold distinctSources
    calc ((rel.map fun a => a.source).dedup).length
        ≤ (rel.map fun a => a.source).length := (List.dedup_sublist _).length_le
      _ = rel.length := List.length_map _ _
  omega

theorem searchRows_similarity {d : Emb → Emb → ℤ} {qEmb : Emb}
    {source : Option String} {table : List Article} {x : ScoredArticle}
    (h : x ∈ searchRows d qEmb source table) :
    x.similarity = 1 - d x.article.embedding qEmb := by
  unfold searchRows at h
  obtain ⟨a, _, rfl⟩ := List.mem_map.mp h
  rfl

/-! ## Concrete fixtures used by witnesses and counterexamples -/

def artA : Article := ⟨1, "HKFP", "tA", "lA", 0, "cA", [3], false⟩

def artB1 : Article := ⟨2, "RTHK", "tB1", "lB1", 0, "cB1", [3], false⟩

def artB2 : Article := ⟨3, "RTHK", "tB2", "lB2", 0, "cB2", [2], false⟩

def artC1 : Article := ⟨4, "SCMP", "tC1", "lC1", 0, "cC1", [1], false⟩

def artD1 : Article := ⟨5, "HK01", "tD1", "lD1", 0, "cD1", [0], false⟩

def artDupLink : Article := ⟨9, "SCMP", "other title", "lA", 0, "x", [7], false⟩

def artTieHi : Article := ⟨2, "HKFP", "t2", "l2", 0, "c2", [5], false⟩

def artTieLo : Article := ⟨1, "RTHK", "t1", "l1", 0, "c1", [5], false⟩

def draftDemo : SummaryDraft :=
  ⟨"Demo title", ["k1", "k2", "k3", "k4"],
    "First sentence. Second sentence.", [⟨"First sentence.", 2⟩]⟩

def genDemo : List ArticleInput → Option SummaryDraft := fun _ => some draftDemo

def genFailDemo : List ArticleInput → Option SummaryDraft := fun _ => none

def embedDemo : String → Emb := fun _ => [1]

def pickHead : List Article → Option Article := fun l => l.head?

def dbTwoSources : DB := ⟨[artA, artB1, artB2], [], 0, 0⟩

def dbFourSources : DB := ⟨[artA, artB1, artB2, artC1, artD1], [], 0, 0⟩

def embedProcFallbackDemo : EmbedProc :=
  { encode := none
    hash := fun s => s.length
    randUnit := fun n => [(n : ℤ)] }

/-! ## Claim theorems -/

/-- C8: within one process (one fixed hash scheme and numpy routine), any two
invocations of the fallback path of `create_simple_embedding` whose inputs
agree after placeholder substitution and truncation to 10000 characters
return bit-identical vectors. -/
theorem fallback_embedding_deterministic (p : EmbedProc)
    (t₁ t₂ : Option String) (hmodel : p.encode = none)
    (hnorm : normalizeInput t₁ = normalizeInput t₂) :
    create_simple_embedding p t₁ = create_simple_embedding p t₂ := by
  simp only [create_simple_embedding, hmodel, hnorm]

/-- Witness for C8 at a concrete process state and text. -/
theorem fallback_embedding_deterministic_witness :
    embedProcFallbackDemo.encode = none ∧
    create_simple_embedding embedProcFallbackDemo (some "hong kong news")
      = create_simple_embedding embedProcFallbackDemo (some "hong kong news") :=
  ⟨rfl, fallback_embedding_deterministic embedProcFallbackDemo
    (some "hong kong news") (some "hong kong news") rfl rfl⟩

/-- C9: ingesting a record whose `link` already exists among the stored
articles is a no-op (the table is returned unchanged: no duplicate row, no
modification of the existing row), and the statement preserves the global
uniqueness of `link`. -/
theorem duplicate_link_ingestion_noop (table : List Article) (a : Article)
    (h : ∃ b ∈ table, b.link = a.link) :
    insertArticleOnConflictLink table a = table ∧
    ((table.map fun b => b.link).Nodup →
      ((insertArticleOnConflictLink table a).map fun b => b.link).Nodup) := by
  obtain ⟨b, hb, hlink⟩ := h
  have hany : (table.any fun c => c.link == a.link) = true :=
    List.any_eq_true.mpr ⟨b, hb, by simp [hlink]⟩
  have hnoop : insertArticleOnConflictLink table a = table := by
    simp [insertArticleOnConflictLink, hany]
  exact ⟨hnoop, fun hnd => by rw [hnoop]; exact hnd⟩

/-- Witness for C9: re-ingesting a record with the already stored link
`"lA"` leaves the table unchanged. -/
theorem duplicate_link_ingestion_noop_witness :
    (∃ b ∈ [artA, artB1], b.link = artDupLink.link) ∧
    insertArticleOnConflictLink [artA, artB1] artDupLink = [artA, artB1] :=
  ⟨by decide, (duplicate_link_ingestion_noop [artA, artB1] artDupLink
    (by decide)).1⟩

set_option maxRecDepth 4000 in
/-- C10: when both a `source` filter and an `ids` list are supplied (both
truthy), `get_news` builds a single SQL string containing two `WHERE`
clauses, and the request returns an error response instead of the
intersection of the two filters. -/
theorem conflicting_filters_rejected (source : Option String)
    (ids : Option (List Nat)) (lim off : Nat) (table : List Article)
    (hs : truthyStr source = true) (hi : truthyIds ids = true) :
    countWhereKw (buildNewsQuery (truthyStr source) (truthyIds ids)) = 2 ∧
    get_news source ids lim off table
      = Except.error "invalid SQL: duplicate WHERE clause" := by
  have hcount : countWhereKw (buildNewsQuery true true) = 2 := by decide
  refine ⟨by rw [hs, hi]; exact hcount, ?_⟩
  unfold get_news
  rw [hs, hi, if_neg (by rw [hcount]; omega)]

/-- Witness for C10 at concrete request parameters. -/
theorem conflicting_filters_rejected_witness :
    truthyStr (some "HKFP") = true ∧ truthyIds (some [1, 2]) = true ∧
    get_news (some "HKFP") (some [1, 2]) 10 0 [artA, artB1]
      = Except.error "invalid SQL: duplicate WHERE clause" :=
  ⟨rfl, rfl, (conflicting_filters_rejected (some "HKFP") (some [1, 2]) 10 0
    [artA, artB1] rfl rfl).2⟩

/-- C5 counterexample: two stored articles with bit-identical distance to
the query appear in the fetched-row order (here id 2 before id 1), not in
ascending id order: the handler has no id tie-break. -/
theorem tie_break_not_by_id :
    cosDistUnit artTieHi.embedding [1] = cosDistUnit artTieLo.embedding [1] ∧
    ((search_news cosDistUnit [1] none 10 [artTieHi, artTieLo]).map
      fun r => r.article.id) = [2, 1] ∧
    ¬ ((search_news cosDistUnit [1] none 10 [artTieHi, artTieLo]).map
      fun r => r.article.id).Sorted (· ≤ ·) := by
  refine ⟨by decide, by decide, by decide⟩

/-- C5 amended: two result items with bit-identical similarity appear in the
ranked output in the same relative order in which the rows were fetched
from storage (the Python sort is stable); the ordering is deterministic
given the fetched row order, but there is no ascending-id tie-break. -/
theorem tie_order_follows_fetch_order (d : Emb → Emb → ℤ) (qEmb : Emb)
    (source : Option String) (table : List Article) (x y : ScoredArticle)
    (hxy : x.similarity = y.similarity)
    (hsub : List.Sublist [x, y] (searchRows d qEmb source table)) :
    List.Sublist [x, y] (rankedNews d qEmb source table) := by
  unfold rankedNews
  exact List.pair_sublist_insertionSort (le_of_eq hxy.symm) hsub

/-- Witness for the amended C5 at a concrete tie. -/
theorem tie_order_follows_fetch_order_witness :
    (ScoredArticle.mk artTieHi 5).similarity
      = (ScoredArticle.mk artTieLo 5).similarity ∧
    List.Sublist [ScoredArticle.mk artTieHi 5, ScoredArticle.mk artTieLo 5]
      (rankedNews cosDistUnit [1] none [artTieHi, artTieLo]) :=
  ⟨rfl, tie_order_follows_fetch_order cosDistUnit [1] none
    [artTieHi, artTieLo] _ _ rfl (by decide)⟩

/-- C4: `search_news` ranks the full candidate set by non-increasing
similarity, equivalently non-decreasing cosine distance with
`similarity = 1 - distance`, before truncating to `lim`; no returned item
has strictly larger distance than any omitted ranked item. -/
theorem search_ranking_correct (d : Emb → Emb → ℤ) (qEmb : Emb)
    (source : Option String) (lim : Nat) (table : List Article) :
    (search_news d qEmb source lim table).Sorted simGE ∧
    (search_news d qEmb source lim table).Pairwise
      (fun x y => d x.article.embedding qEmb ≤ d y.article.embedding qEmb) ∧
    (∀ x ∈ search_news d qEmb source lim table,
      ∀ y ∈ (rankedNews d qEmb source table).drop lim,
        y.similarity ≤ x.similarity ∧
        d x.article.embedding qEmb ≤ d y.article.embedding qEmb) ∧
    (∀ x ∈ search_news d qEmb source lim table,
      x.similarity = 1 - d x.article.embedding qEmb) := by
  have hranked : (rankedNews d qEmb source table).Sorted simGE :=
    List.sorted_insertionSort _ _
  have hsim : ∀ x ∈ rankedNews d qEmb source table,
      x.similarity = 1 - d x.article.embedding qEmb := by
    intro x hx
    exact searchRows_similarity ((List.mem_insertionSort _).mp hx)
  have hmem : ∀ x ∈ search_news d qEmb source lim table,
      x ∈ rankedNews d qEmb source table := by
    intro x hx
    exact (List.take_sublist _ _).mem hx
  have hsorted : (search_news d qEmb source lim table).Sorted simGE :=
    List.Pairwise.sublist (List.take_sublist _ _) hranked
  refine ⟨hsorted, ?_, ?_, fun x hx => hsim x (hmem x hx)⟩
  · refine hsorted.imp_of_mem ?_
    intro x y hx hy hr
    have h1 := hsim x (hmem x hx)
    have h2 := hsim y (hmem y hy)
    unfold simGE at hr
    omega
  · intro x hx y hy
    have hr : simGE x y :=
      List.Sorted.rel_of_mem_take_of_mem_drop hranked hx hy
    have h1 := hsim x (hmem x hx)
    have h2 := hsim y (List.Sublist.mem hy (List.drop_sublist _ _))
    unfold simGE at hr
    exact ⟨hr, by omega⟩

/-- Witness for C4 at a concrete query and table. -/
theorem search_ranking_correct_witness :
    (search_news cosDistUnit [1] none 2 [artA, artC1, artB2]).Sorted simGE ∧
    (search_news cosDistUnit [1] none 2 [artA, artC1, artB2]).Pairwise
      (fun x y =>
        cosDistUnit x.article.embedding [1]
          ≤ cosDistUnit y.article.embedding [1]) ∧
    (∀ x ∈ search_news cosDistUnit [1] none 2 [artA, artC1, artB2],
      ∀ y ∈ (rankedNews cosDistUnit [1] none [artA, artC1, artB2]).drop 2,
        y.similarity ≤ x.similarity ∧
        cosDistUnit x.article.embedding [1]
          ≤ cosDistUnit y.article.embedding [1]) ∧
    (∀ x ∈ search_news cosDistUnit [1] none 2 [artA, artC1, artB2],
      x.similarity = 1 - cosDistUnit x.article.embedding [1]) :=
  search_ranking_correct cosDistUnit [1] none 2 [artA, artC1, artB2]

theorem summarize_news_articles_cases
    (gen : List ArticleInput → Option SummaryDraft) (saveOk : Bool)
    (embedFn : String → Emb) (db : DB) (ids : List Nat) :
    ((summarize_news_articles gen saveOk embedFn db ids).1 = db ∧
      ∃ e, (summarize_news_articles gen saveOk embedFn db ids).2
        = Except.error e) ∨
    (∃ draft row,
      (summarize_news_articles gen saveOk embedFn db ids).2
        = Except.ok (db.nextSummaryId, draft) ∧
      (summarize_news_articles gen saveOk embedFn db ids).1
        = { db with summaries := db.summaries ++ [row],
                    nextSummaryId := db.nextSummaryId + 1 }) := by
  unfold summarize_news_articles
  split
  · exact Or.inl ⟨rfl, _, rfl⟩
  · split
    · exact Or.inl ⟨rfl, _, rfl⟩
    · split
      · exact Or.inl ⟨rfl, _, rfl⟩
      · rename_i draft _
        split
        · exact Or.inr ⟨draft,
            { id := db.nextSummaryId, title := draft.title,
              tldr := draft.tldr, summary := draft.summary,
              news_articles_ids := ids, refs := none,
              embedding := embedFn (draft.title ++ " " ++ draft.summary),
              created_at := db.clock }, rfl, rfl⟩
        · exact Or.inl ⟨rfl, _, rfl⟩

theorem create_random_summary_none (d : Emb → Emb → ℤ)
    (gen : List ArticleInput → Option SummaryDraft) (saveOk : Bool)
    (embedFn : String → Emb) (pick : List Article → Option Article)
    (db : DB)
    (hp : pick (db.news.filter fun a => !a.is_summarized) = none) :
    create_random_summary d gen saveOk embedFn pick db
      = (db, Except.error "No unsummarized articles found") := by
  unfold create_random_summary
  rw [hp]

theorem create_random_summary_guard (d : Emb → Emb → ℤ)
    (gen : List ArticleInput → Option SummaryDraft) (saveOk : Bool)
    (embedFn : String → Emb) (pick : List Article → Option Article)
    (db : DB) (seed : Article)
    (hp : pick (db.news.filter fun a => !a.is_summarized) = some seed)
    (hlt : (relatedPool d seed db.news).length < 2) :
    create_random_summary d gen saveOk embedFn pick db
      = (db, Except.error
          "Not enough related articles found from different sources") := by
  unfold create_random_summary
  rw [hp]
  exact if_pos hlt

theorem create_random_summary_go (d : Emb → Emb → ℤ)
    (gen : List ArticleInput → Option SummaryDraft) (saveOk : Bool)
    (embedFn : String → Emb) (pick : List Article → Option Article)
    (db : DB) (seed : Article)
    (hp : pick (db.news.filter fun a => !a.is_summarized) = some seed)
    (hge : ¬ (relatedPool d seed db.news).length < 2) :
    create_random_summary d gen saveOk embedFn pick db
      = summarizeAndMark gen saveOk embedFn db
          ((seed :: dedupBySource (relatedPool d seed db.news) []).map
            fun a => a.id) := by
  unfold create_random_summary
  rw [hp]
  exact if_neg hge

theorem summarizeAndMark_cases
    (gen : List ArticleInput → Option SummaryDraft) (saveOk : Bool)
    (embedFn : String → Emb) (db : DB) (ids : List Nat) :
    ((summarizeAndMark gen saveOk embedFn db ids).1 = db ∧
      ∃ e, (summarizeAndMark gen saveOk embedFn db ids).2
        = Except.error e) ∨
    (∃ r row,
      (summarizeAndMark gen saveOk embedFn db ids).2 = Except.ok r ∧
      (summarizeAndMark gen saveOk embedFn db ids).1
        = { db with
              news := markSummarized ids db.news,
              summaries := db.summaries ++ [row],
              nextSummaryId := db.nextSummaryId + 1 }) := by
  unfold summarizeAndMark
  rcases summarize_news_articles_cases gen saveOk embedFn db ids with
      ⟨h1, e0, h2⟩ | ⟨draft, row, h2, h1⟩
  · rw [h2]
    exact Or.inl ⟨h1, e0, rfl⟩
  · rw [h2]
    refine Or.inr ⟨(db.nextSummaryId, draft), row, rfl, ?_⟩
    rw [h1]

/-- C3: when the random-summary flow fails (generation failure, schema
violation, or storage failure while saving), the database is left exactly
as it was: no summary row is persisted and no article has its
`is_summarized` flag set; a summary row is appended and articles are
marked only on a successful run. -/
theorem failed_summarization_persists_nothing (d : Emb → Emb → ℤ)
    (gen : List ArticleInput → Option SummaryDraft) (saveOk : Bool)
    (embedFn : String → Emb) (pick : List Article → Option Article)
    (db : DB) :
    (∀ e, (create_random_summary d gen saveOk embedFn pick db).2
        = Except.error e →
      (create_random_summary d gen saveOk embedFn pick db).1 = db) ∧
    (∀ r, (create_random_summary d gen saveOk embedFn pick db).2
        = Except.ok r →
      ∃ ids row,
        (create_random_summary d gen saveOk embedFn pick db).1
          = { db with
                news := markSummarized ids db.news,
                summaries := db.summaries ++ [row],
                nextSummaryId := db.nextSummaryId + 1 }) := by
  cases hp : pick (db.news.filter fun a => !a.is_summarized) with
  | none =>
    rw [create_random_summary_none d gen saveOk embedFn pick db hp]
    exact ⟨fun e _ => rfl, fun r hr => by simp at hr⟩
  | some seed =>
    by_cases hg : (relatedPool d seed db.news).length < 2
    · rw [create_random_summary_guard d gen saveOk embedFn pick db seed hp hg]
      exact ⟨fun e _ => rfl, fun r hr => by simp at hr⟩
    · rw [create_random_summary_go d gen saveOk embedFn pick db seed hp hg]
      rcases summarizeAndMark_cases gen saveOk embedFn db
          ((seed :: dedupBySource (relatedPool d seed db.news) []).map
            fun a => a.id) with ⟨h1, e0, h2⟩ | ⟨r0, row, h2, h1⟩
      · refine ⟨fun e _ => h1, fun r hr => ?_⟩
        rw [h2] at hr
        simp at hr
      · refine ⟨fun e he => ?_, fun r _ => ?_⟩
        · rw [h2] at he
          simp at he
        · exact ⟨(seed :: dedupBySource (relatedPool d seed db.news) []).map
            (fun a => a.id), row, h1⟩

/-- Witness for C3: a failing generative call leaves the database
untouched. -/
theorem failed_summarization_persists_nothing_witness :
    (create_random_summary cosDistUnit genFailDemo true embedDemo pickHead
        dbFourSources).2 = Except.error "Failed to generate summary" ∧
    (create_random_summary cosDistUnit genFailDemo true embedDemo pickHead
        dbFourSources).1 = dbFourSources :=
  ⟨by rfl, (failed_summarization_persists_nothing cosDistUnit genFailDemo
      true embedDemo pickHead dbFourSources).1
      "Failed to generate summary" (by rfl)⟩

/-- C2 counterexample: the neighbor pool of seed `artA` spans exactly one
distinct source other than the seed's, yet the flow does not fail with the
insufficient-diversity error — it generates and returns a summary. -/
theorem single_other_source_not_rejected :
    ((relatedPool cosDistUnit artA dbTwoSources.news).map
      fun a => a.source).dedup = ["RTHK"] ∧
    (create_random_summary cosDistUnit genDemo true embedDemo pickHead
        dbTwoSources).2 = Except.ok (0, draftDemo) := ⟨by rfl, by rfl⟩

/-- C2 amended: the diversity guard counts fetched neighbors, not distinct
sources. With a seed selected, the flow fails with the not-enough-related
error exactly when the neighbor query returns fewer than 2 rows; whenever
it returns 2 or more rows — even all sharing one single other source — the
flow proceeds to summarize the seed plus one representative per distinct
neighbor source. -/
theorem diversity_guard_counts_neighbors (d : Emb → Emb → ℤ)
    (gen : List ArticleInput → Option SummaryDraft) (saveOk : Bool)
    (embedFn : String → Emb) (pick : List Article → Option Article)
    (db : DB) (seed : Article)
    (hp : pick (db.news.filter fun a => !a.is_summarized) = some seed) :
    ((relatedPool d seed db.news).length < 2 →
      create_random_summary d gen saveOk embedFn pick db
        = (db, Except.error
            "Not enough related articles found from different sources")) ∧
    (2 ≤ (relatedPool d seed db.news).length →
      create_random_summary d gen saveOk embedFn pick db
        = summarizeAndMark gen saveOk embedFn db
            ((seed :: dedupBySource (relatedPool d seed db.news) []).map
              fun a => a.id)) := by
  constructor
  · intro h
    exact create_random_summary_guard d gen saveOk embedFn pick db seed hp h
  · intro h
    exact create_random_summary_go d gen saveOk embedFn pick db seed hp
      (by omega)

/-- Witness for the amended C2: with two neighbors from one single other
source the guard passes and the flow proceeds to summarization. -/
theorem diversity_guard_counts_neighbors_witness :
    pickHead (dbTwoSources.news.filter fun a => !a.is_summarized)
      = some artA ∧
    (2 ≤ (relatedPool cosDistUnit artA dbTwoSources.news).length →
      create_random_summary cosDistUnit genDemo true embedDemo pickHead
          dbTwoSources
        = summarizeAndMark genDemo true embedDemo dbTwoSources
            ((artA :: dedupBySource
              (relatedPool cosDistUnit artA dbTwoSources.news) []).map
              fun a => a.id)) :=
  ⟨rfl, (diversity_guard_counts_neighbors cosDistUnit genDemo true embedDemo
    pickHead dbTwoSources artA rfl).2⟩

def srow1 : SummaryRow := ⟨1, "T1", ["a"], "S1", [1], none, [4], 10⟩

def srow2 : SummaryRow := ⟨2, "T2", ["b"], "S2", [2], none, [3], 11⟩

def srow3 : SummaryRow := ⟨3, "T3", ["c"], "S3", [3], none, [2], 12⟩

def srow4 : SummaryRow := ⟨4, "T4", ["d"], "S4", [4], none, [1], 13⟩

def dbSummaries4 : DB := ⟨[], [srow1, srow2, srow3, srow4], 5, 14⟩

/-- C7 (code bug): with offset 1 and limit 2 over four ranked summaries, the
search path of `get_summaries` returns a single summary (the Python slice
`summaries[offset:limit]`, here `ranked[1:2]`), although the envelope
reports `limit = 2` and two ranked summaries remain after skipping the
first; the intended page — the one the non-search path computes with SQL
`LIMIT %s OFFSET %s` — is `ranked[1:3]`, with two summaries. -/
theorem summaries_pagination_slice_bug :
    ((get_summaries_search cosDistUnit [1] 2 1 dbSummaries4).summaries.map
      fun s => s.id) = [2] ∧
    (get_summaries_search cosDistUnit [1] 2 1 dbSummaries4).limit = 2 ∧
    (get_summaries_search cosDistUnit [1] 2 1 dbSummaries4).offset = 1 ∧
    (get_summaries_search cosDistUnit [1] 2 1 dbSummaries4).total = 4 ∧
    ((((rankedSummaries cosDistUnit [1] dbSummaries4).drop 1).take 2).map
      fun s => s.id) = [2, 3] :=
  ⟨rfl, rfl, rfl, rfl, rfl⟩

def draftWithRefs : SummaryDraft :=
  ⟨"CTitle", ["x1", "x2", "x3", "x4"], "Alpha. Beta.", [⟨"Alpha.", 7⟩]⟩

def dbEmptySummaries : DB := ⟨[], [], 1, 42⟩

/-- C6 (code bug): the INSERT of `save_summary_to_db` names no `refs`
column, so a summary created through the summarization pipeline and then
fetched back by id carries an empty `refs` array: the citation pairing the
generative model supplied (here the sentence grounded by article 7) is
dropped rather than returned as `\x7bsentence, articleId\x7d` pairs. -/
theorem citations_dropped_on_save :
    draftWithRefs.refs = [⟨"Alpha.", 7⟩] ∧
    get_summary
        (save_summary_to_db embedDemo draftWithRefs [7, 9]
          dbEmptySummaries).1
        (save_summary_to_db embedDemo draftWithRefs [7, 9]
          dbEmptySummaries).2
      = some
          { id := 1
            title := "CTitle"
            tldr := ["x1", "x2", "x3", "x4"]
            summary := "Alpha. Beta."
            news_articles_ids := [7, 9]
            refs := []
            created_at := 42 } :=
  ⟨rfl, rfl⟩

theorem diverse_selection_spec (d : Emb → Emb → ℤ) (seed : Article)
    (rel : List Article)
    (hsrc : ∀ a ∈ rel, a.source ≠ seed.source)
    (hsorted : rel.Sorted (distLE d seed.embedding))
    (hdiv : 3 ≤ distinctSources (seed :: rel)) :
    diverseCandidates seed rel
      = Except.ok (seed :: dedupBySource rel []) ∧
    ((seed :: dedupBySource rel []).map fun a => a.source).Nodup ∧
    List.Sublist (dedupBySource rel []) rel ∧
    (∀ s, s ∈ rel.map (fun a => a.source) →
      ∃ a, a ∈ dedupBySource rel [] ∧ a.source = s) ∧
    (∀ a ∈ dedupBySource rel [],
      rel.find? (fun b => b.source == a.source) = some a) ∧
    (∀ a ∈ dedupBySource rel [], ∀ b ∈ rel, b.source = a.source →
      d a.embedding seed.embedding ≤ d b.embedding seed.embedding) ∧
    2 ≤ (seed :: dedupBySource rel []).length ∧
    (seed :: dedupBySource rel []).length ≤ 1 + rel.length := by
  have hlen2 : 2 ≤ rel.length := rel_length_of_distinct hdiv
  have hok : diverseCandidates seed rel
      = Except.ok (seed :: dedupBySource rel []) := by
    unfold diverseCandidates
    rw [if_neg (by omega)]
  have hnodup :
      ((seed :: dedupBySource rel []).map fun a => a.source).Nodup := by
    simp only [List.map_cons, List.nodup_cons]
    refine ⟨?_, dedupBySource_sources_nodup rel []⟩
    intro hmem
    obtain ⟨c, hc, hcs⟩ := List.mem_map.mp hmem
    exact hsrc c (mem_dedupBySource hc).1 hcs
  have hcov : ∀ s, s ∈ rel.map (fun a => a.source) →
      ∃ a, a ∈ dedupBySource rel [] ∧ a.source = s := by
    intro s hsm
    exact dedupBySource_covers hsm (List.not_mem_nil s)
  have hfind : ∀ a ∈ dedupBySource rel [],
      rel.find? (fun b => b.source == a.source) = some a :=
    fun a ha => dedupBySource_find ha
  have hmin : ∀ a ∈ dedupBySource rel [], ∀ b ∈ rel, b.source = a.source →
      d a.embedding seed.embedding ≤ d b.embedding seed.embedding := by
    intro a ha b hb hbs
    exact sorted_find_min hsorted (hfind a ha) b hb (by simp [hbs])
  have hne : dedupBySource rel [] ≠ [] := by
    have hpos : rel ≠ [] := by
      intro hcon
      rw [hcon] at hlen2
      simp at hlen2
    obtain ⟨b, hb⟩ := List.exists_mem_of_ne_nil rel hpos
    obtain ⟨a, ha, _⟩ := hcov b.source (List.mem_map_of_mem _ hb)
    intro hcon
    rw [hcon] at ha
    exact (List.not_mem_nil a) ha
  refine ⟨hok, hnodup, dedupBySource_sublist rel [], hcov, hfind, hmin,
    ?_, ?_⟩
  · have := List.length_pos.mpr hne
    simp only [List.length_cons]
    omega
  · have h1 := (dedupBySource_sublist rel []).length_le
    simp only [List.length_cons]
    omega

/-- C1: whenever the seed together with its fetched neighbor pool spans at
least 3 distinct sources, the flow's candidate set is accepted by the
diversity guard and equals the seed followed by exactly one representative
per distinct neighbor source — each the nearest (first-ranked) neighbor of
its source — taken in nearest-first order; no two members share a source
and the size lies between 2 and 1 + 5. -/
theorem diversity_contract (d : Emb → Emb → ℤ) (seed : Article)
    (table : List Article)
    (hdiv : 3 ≤ distinctSources (seed :: relatedPool d seed table)) :
    diverseCandidates seed (relatedPool d seed table)
      = Except.ok (seed :: dedupBySource (relatedPool d seed table) []) ∧
    ((seed :: dedupBySource (relatedPool d seed table) []).map
      fun a => a.source).Nodup ∧
    List.Sublist (dedupBySource (relatedPool d seed table) [])
      (relatedPool d seed table) ∧
    (∀ s, s ∈ (relatedPool d seed table).map (fun a => a.source) →
      ∃ a, a ∈ dedupBySource (relatedPool d seed table) []
        ∧ a.source = s) ∧
    (∀ a ∈ dedupBySource (relatedPool d seed table) [],
      (relatedPool d seed table).find? (fun b => b.source == a.source)
        = some a) ∧
    (∀ a ∈ dedupBySource (relatedPool d seed table) [],
      ∀ b ∈ relatedPool d seed table, b.source = a.source →
        d a.embedding seed.embedding ≤ d b.embedding seed.embedding) ∧
    2 ≤ (seed :: dedupBySource (relatedPool d seed table) []).length ∧
    (seed :: dedupBySource (relatedPool d seed table) []).length
      ≤ 1 + 5 := by
  have hsrc : ∀ a ∈ relatedPool d seed table, a.source ≠ seed.source :=
    fun a ha => (mem_relatedPool ha).2.2
  obtain ⟨h1, h2, h3, h4, h5, h6, h7, h8⟩ :=
    diverse_selection_spec d seed (relatedPool d seed table) hsrc
      (relatedPool_sorted d seed table) hdiv
  refine ⟨h1, h2, h3, h4, h5, h6, h7, ?_⟩
  have h9 := relatedPool_length_le d seed table
  omega

/-- Witness for C1 at a concrete seed and four-source table. -/
theorem diversity_contract_witness :
    3 ≤ distinctSources
      (artA :: relatedPool cosDistUnit artA dbFourSources.news) ∧
    (diverseCandidates artA (relatedPool cosDistUnit artA dbFourSources.news)
      = Except.ok (artA ::
          dedupBySource (relatedPool cosDistUnit artA dbFourSources.news) []) ∧
    ((artA :: dedupBySource
      (relatedPool cosDistUnit artA dbFourSources.news) []).map
      fun a => a.source).Nodup ∧
    List.Sublist
      (dedupBySource (relatedPool cosDistUnit artA dbFourSources.news) [])
      (relatedPool cosDistUnit artA dbFourSources.news) ∧
    (∀ s, s ∈ (relatedPool cosDistUnit artA dbFourSources.news).map
        (fun a => a.source) →
      ∃ a, a ∈ dedupBySource
          (relatedPool cosDistUnit artA dbFourSources.news) []
        ∧ a.source = s) ∧
    (∀ a ∈ dedupBySource
        (relatedPool cosDistUnit artA dbFourSources.news) [],
      (relatedPool cosDistUnit artA dbFourSources.news).find?
        (fun b => b.source == a.source) = some a) ∧
    (∀ a ∈ dedupBySource
        (relatedPool cosDistUnit artA dbFourSources.news) [],
      ∀ b ∈ relatedPool cosDistUnit artA dbFourSources.news,
        b.source = a.source →
        cosDistUnit a.embedding artA.embedding
          ≤ cosDistUnit b.embedding artA.embedding) ∧
    2 ≤ (artA :: dedupBySource
      (relatedPool cosDistUnit artA dbFourSources.news) []).length ∧
    (artA :: dedupBySource
      (relatedPool cosDistUnit artA dbFourSources.news) []).length
      ≤ 1 + 5) :=
  ⟨by decide,
    diversity_contract cosDistUnit artA dbFourSources.news (by decide)⟩

end NewsBackend
